import Mathlib

/-!
# Verification of the weather-forecast aggregation core (`src/Exam.py`)

Shallow embedding of the aggregation logic of `Exam.py`:

* `WeatherData` (class `WeatherData`): per-day accumulator with rain/snow
  running sums, a transition counter, and the list of `(temp, weather)`
  samples seen so far.
* `EngineState` (the mutable state of class `WeatherForecast` relevant to
  aggregation): the dictionary `daily_data` (modelled as an insertion-ordered
  list of `WeatherData`, keyed by their `date` field, kept duplicate-free
  exactly as a Python dict is) and the running `max_humidity`.
* `processOne` / `processForecasts` embed `WeatherForecast._process_forecasts`;
  `generateReport` embeds the report construction of
  `WeatherForecast.generate_report`.

Python floats are modelled as exact rationals (`ℚ`); `round(x, 1)` is
modelled as `round1`, rounding half to even as Python's `round` does.
The derivation of a sample's local calendar date string from its timestamp
(`datetime.fromtimestamp(...).strftime('%Y-%m-%d')`) is external library
behaviour; each `Forecast` record carries its already-derived date string,
and `today` is the derived date string of the run's reference time.
-/

namespace Exam

/-- Python's builtin `abs` on a rational, written with an explicit case split
so that it evaluates by rewriting; `ratAbs_eq_abs` identifies it with `|·|`. -/
def ratAbs (q : ℚ) : ℚ := if q < 0 then -q else q

/-- Round a rational to the nearest integer, ties to even
(the rounding mode of Python's builtin `round`). -/
def roundHalfEven (q : ℚ) : ℤ :=
  let f : ℤ := ⌊q⌋
  let r : ℚ := q - f
  if r < 1/2 then f
  else if 1/2 < r then f + 1
  else if f % 2 = 0 then f else f + 1

/-- Python's `round(q, 1)`: round to one decimal place, ties to even. -/
def round1 (q : ℚ) : ℚ := (roundHalfEven (q * 10) : ℚ) / 10

/-- One `(temperature, weather_category, rain, snow)` argument tuple of
`WeatherData.add_sample`. -/
structure Sample where
  temp : ℚ
  weather : String
  rain : ℚ
  snow : ℚ
deriving DecidableEq, Repr

/-- State of class `WeatherData` (`Exam.py` lines 19–24). -/
structure WeatherData where
  date : String
  rain_mm : ℚ
  snow_mm : ℚ
  transitions : ℕ
  samples : List (ℚ × String)
deriving DecidableEq, Repr

/-- `WeatherData.__init__(date)`. -/
def WeatherData.init (date : String) : WeatherData :=
  { date := date, rain_mm := 0, snow_mm := 0, transitions := 0, samples := [] }

/-- `WeatherData.add_sample(temp, weather_main, rain, snow)`
(`Exam.py` lines 26–46): add precipitation, detect a major transition
against the last stored sample, append the new `(temp, weather)` pair. -/
def WeatherData.addSample (w : WeatherData) (temp : ℚ) (weather : String)
    (rain : ℚ) (snow : ℚ) : WeatherData :=
  { date := w.date
    rain_mm := w.rain_mm + rain
    snow_mm := w.snow_mm + snow
    transitions := w.transitions +
      (match w.samples.getLast? with
       | some (prevTemp, prevWeather) =>
           if weather ≠ prevWeather ∧ 3 < ratAbs (temp - prevTemp) then 1 else 0
       | none => 0)
    samples := w.samples ++ [(temp, weather)] }

/-- One entry of `forecast_details`: the result of `WeatherData.to_dict`
(`Exam.py` lines 48–55). -/
structure DayDict where
  date_local : String
  rain_cumul_mm : ℚ
  snow_cumul_mm : ℚ
  major_transitions_count : ℕ
deriving DecidableEq, Repr

/-- `WeatherData.to_dict` (`Exam.py` lines 48–55). -/
def WeatherData.toDict (w : WeatherData) : DayDict :=
  { date_local := w.date
    rain_cumul_mm := round1 w.rain_mm
    snow_cumul_mm := round1 w.snow_mm
    major_transitions_count := w.transitions }

/-- Feed one `Sample` to a `WeatherData`. -/
def step (w : WeatherData) (s : Sample) : WeatherData :=
  w.addSample s.temp s.weather s.rain s.snow

/-- Run a fresh `WeatherData` for date `d` over a whole sample sequence. -/
def runDay (d : String) (l : List Sample) : WeatherData :=
  l.foldl step (WeatherData.init d)

/-- One forecast record as consumed by `WeatherForecast._process_forecasts`
(`Exam.py` lines 116–137), with its local calendar date string already
derived from the timestamp, and absent precipitation already defaulted
to `0.0` (`forecast.get('rain', {}).get('3h', 0.0)`). -/
structure Forecast where
  date : String
  temp : ℚ
  weather : String
  rain : ℚ
  snow : ℚ
  humidity : ℕ
deriving DecidableEq, Repr

/-- The sample carried by a forecast record. -/
def Forecast.sample (f : Forecast) : Sample :=
  { temp := f.temp, weather := f.weather, rain := f.rain, snow := f.snow }

/-- Aggregation state of class `WeatherForecast`: the `daily_data` dict
(insertion-ordered, keyed by the `date` of each entry) and `max_humidity`
(`Exam.py` lines 69–70). -/
structure EngineState where
  dailyData : List WeatherData
  maxHumidity : ℕ
deriving DecidableEq, Repr

/-- `WeatherForecast.__init__`: empty dict, `max_humidity = 0`. -/
def EngineState.init : EngineState := { dailyData := [], maxHumidity := 0 }

/-- Update the (unique) entry with key `date` in the dict, as
`self.daily_data[date_str].add_sample(...)` does. -/
def updateDay (date : String) (g : WeatherData → WeatherData) :
    List WeatherData → List WeatherData
  | [] => []
  | w :: ws => if w.date = date then g w :: ws else w :: updateDay date g ws

/-- The loop body of `WeatherForecast._process_forecasts`
(`Exam.py` lines 116–143): skip the current day, otherwise create the
day's `WeatherData` if missing, raise `max_humidity`, and add the sample. -/
def processOne (today : String) (st : EngineState) (f : Forecast) : EngineState :=
  if f.date = today then st
  else
    let dd0 : List WeatherData :=
      if st.dailyData.any (fun w => w.date == f.date) then st.dailyData
      else st.dailyData ++ [WeatherData.init f.date]
    { dailyData := updateDay f.date (fun w => step w f.sample) dd0
      maxHumidity := max st.maxHumidity f.humidity }

/-- `WeatherForecast._process_forecasts(forecasts)`: fold the loop body
over the forecast list in order. -/
def processForecasts (today : String) (st : EngineState) (fs : List Forecast) :
    EngineState :=
  fs.foldl (processOne today) st

/-- The report dictionary built by `WeatherForecast.generate_report`
(`Exam.py` lines 149–166). -/
structure Report where
  forecast_location_name : String
  country_code : String
  total_rain_period_mm : ℚ
  total_snow_period_mm : ℚ
  max_humidity_period : ℕ
  forecast_details : List DayDict
deriving DecidableEq, Repr

/-- Sort key of `sorted(self.daily_data.values(), key=lambda x: x.date)`. -/
def dateLE (a b : WeatherData) : Prop := a.date ≤ b.date

instance : DecidableRel dateLE := fun a b =>
  inferInstanceAs (Decidable (a.date ≤ b.date))

instance : IsTotal WeatherData dateLE := ⟨fun a b => le_total a.date b.date⟩

instance : IsTrans WeatherData dateLE := ⟨fun _ _ _ h h' => le_trans h h'⟩

/-- `WeatherForecast.generate_report` (`Exam.py` lines 149–166): totals are
sums of the unrounded per-day accumulators, rounded once; details are the
per-day dicts sorted ascending by date. -/
def generateReport (locationName country : String) (st : EngineState) : Report :=
  { forecast_location_name := locationName
    country_code := country.toUpper
    total_rain_period_mm := round1 ((st.dailyData.map (fun w => w.rain_mm)).sum)
    total_snow_period_mm := round1 ((st.dailyData.map (fun w => w.snow_mm)).sum)
    max_humidity_period := st.maxHumidity
    forecast_details := (st.dailyData.insertionSort dateLE).map WeatherData.toDict }

/-- Number of major transitions contributed by a sample list, given the
`(temp, weather)` pair of the sample immediately preceding the list
(`none` when the list starts the day). -/
def transCount (prev : Option (ℚ × String)) : List Sample → ℕ
  | [] => 0
  | s :: rest =>
      (match prev with
       | some (pt, pc) => if s.weather ≠ pc ∧ 3 < ratAbs (s.temp - pt) then 1 else 0
       | none => 0)
      + transCount (some (s.temp, s.weather)) rest

/-- Specification-side model of a per-day aggregator, following the spec's
`DailyAggregate` description (§3): it keeps only the most recently added
`(temperature, category)` pair in `last_sample` instead of the whole sample
list. Used solely to compare the implementation against the spec's data
model (claim about observational equivalence). -/
structure DailyAggregate where
  date : String
  rain_total_mm : ℚ
  snow_total_mm : ℚ
  transition_count : ℕ
  last_sample : Option (ℚ × String)
deriving Repr

/-- Specification-side aggregator for a fresh date: zero sums, no
predecessor. -/
def DailyAggregate.init (d : String) : DailyAggregate :=
  { date := d, rain_total_mm := 0, snow_total_mm := 0, transition_count := 0
    last_sample := none }

/-- Specification-side `add_sample` (spec §4.1): add precipitation; if a
previous pair exists and both the category changed and `|Δtemp| > 3.0`,
increment the counter; then remember the new pair. -/
def DailyAggregate.addSample (v : DailyAggregate) (temp : ℚ) (weather : String)
    (rain : ℚ) (snow : ℚ) : DailyAggregate :=
  { date := v.date
    rain_total_mm := v.rain_total_mm + rain
    snow_total_mm := v.snow_total_mm + snow
    transition_count := v.transition_count +
      (match v.last_sample with
       | some (prevTemp, prevWeather) =>
           if weather ≠ prevWeather ∧ 3 < |temp - prevTemp| then 1 else 0
       | none => 0)
    last_sample := some (temp, weather) }

/-- Feed one `Sample` to the specification-side aggregator. -/
def stepSpec (v : DailyAggregate) (s : Sample) : DailyAggregate :=
  v.addSample s.temp s.weather s.rain s.snow

/-- Specification-side `to_summary` (spec §4.1). -/
def DailyAggregate.toSummary (v : DailyAggregate) : DayDict :=
  { date_local := v.date
    rain_cumul_mm := round1 v.rain_total_mm
    snow_cumul_mm := round1 v.snow_total_mm
    major_transitions_count := v.transition_count }

/-- The date keys of the `daily_data` dict, in insertion order. -/
def keys (l : List WeatherData) : List String := l.map (fun w => w.date)

/-- Dict lookup `daily_data[d]`. -/
def findDay (d : String) (l : List WeatherData) : Option WeatherData :=
  l.find? (fun w => w.date == d)

/-- The ordered subsequence of samples of a forecast list whose local date
is `d`. -/
def samplesOf (d : String) (fs : List Forecast) : List Sample :=
  (fs.filter (fun f => f.date == d)).map Forecast.sample

/-- `ratAbs` is the absolute value. -/
theorem ratAbs_eq_abs (q : ℚ) : ratAbs q = |q| := by
  unfold ratAbs
  rcases le_or_lt 0 q with h | h
  · rw [if_neg (not_lt.mpr h), abs_of_nonneg h]
  · rw [if_pos h, abs_of_neg h]

theorem addSample_date (w : WeatherData) (t : ℚ) (c : String) (r s : ℚ) :
    (w.addSample t c r s).date = w.date := rfl

theorem addSample_rain_mm (w : WeatherData) (t : ℚ) (c : String) (r s : ℚ) :
    (w.addSample t c r s).rain_mm = w.rain_mm + r := rfl

theorem addSample_snow_mm (w : WeatherData) (t : ℚ) (c : String) (r s : ℚ) :
    (w.addSample t c r s).snow_mm = w.snow_mm + s := rfl

theorem addSample_samples (w : WeatherData) (t : ℚ) (c : String) (r s : ℚ) :
    (w.addSample t c r s).samples = w.samples ++ [(t, c)] := rfl

theorem addSample_transitions (w : WeatherData) (t : ℚ) (c : String) (r s : ℚ) :
    (w.addSample t c r s).transitions =
      w.transitions +
        (match w.samples.getLast? with
         | some (pt, pc) => if c ≠ pc ∧ 3 < ratAbs (t - pt) then 1 else 0
         | none => 0) := rfl

theorem foldl_step_date (l : List Sample) (w : WeatherData) :
    (l.foldl step w).date = w.date := by
  induction l generalizing w with
  | nil => rfl
  | cons s rest ih => rw [List.foldl_cons, ih, step, addSample_date]

theorem foldl_step_samples (l : List Sample) (w : WeatherData) :
    (l.foldl step w).samples = w.samples ++ l.map (fun s => (s.temp, s.weather)) := by
  induction l generalizing w with
  | nil => simp
  | cons s rest ih =>
    rw [List.foldl_cons, ih, step, addSample_samples]
    simp

theorem foldl_step_rain_mm (l : List Sample) (w : WeatherData) :
    (l.foldl step w).rain_mm = w.rain_mm + (l.map Sample.rain).sum := by
  induction l generalizing w with
  | nil => simp
  | cons s rest ih =>
    rw [List.foldl_cons, ih, step, addSample_rain_mm]
    simp [add_assoc]

theorem foldl_step_snow_mm (l : List Sample) (w : WeatherData) :
    (l.foldl step w).snow_mm = w.snow_mm + (l.map Sample.snow).sum := by
  induction l generalizing w with
  | nil => simp
  | cons s rest ih =>
    rw [List.foldl_cons, ih, step, addSample_snow_mm]
    simp [add_assoc]

theorem foldl_step_transitions (l : List Sample) (w : WeatherData) :
    (l.foldl step w).transitions = w.transitions + transCount w.samples.getLast? l := by
  induction l generalizing w with
  | nil => simp [transCount]
  | cons s rest ih =>
    rw [List.foldl_cons, ih]
    have hs : (step w s).samples.getLast? = some (s.temp, s.weather) := by
      rw [step, addSample_samples, List.getLast?_concat]
    rw [hs, step, addSample_transitions]
    simp only [transCount]
    omega

/-- **C2.** Over any sequence of `add_sample` calls on one day aggregator,
the first sample never increments `transitions`, and each subsequent sample
increments it by exactly 1 when the weather category differs from the
immediately preceding sample's and the absolute temperature difference
exceeds 3.0, and leaves it unchanged otherwise. -/
theorem transition_rule (d : String) (l : List Sample) (s : Sample) :
    (runDay d (l ++ [s])).transitions =
      (runDay d l).transitions +
        (match (l.map (fun x => (x.temp, x.weather))).getLast? with
         | some (pt, pc) => if s.weather ≠ pc ∧ 3 < |s.temp - pt| then 1 else 0
         | none => 0) := by
  rw [runDay, runDay, List.foldl_append, List.foldl_cons, List.foldl_nil, step,
    addSample_transitions, foldl_step_samples]
  simp only [WeatherData.init, List.nil_append]
  congr 1
  cases (l.map fun x => (x.temp, x.weather)).getLast? with
  | none => rfl
  | some p =>
    obtain ⟨pt, pc⟩ := p
    simp [ratAbs_eq_abs]

/-- **C3 counterexample.** Inserting between two samples a sample whose
temperature is within 3.0 °C of the previous sample's and whose category
equals the previous sample's can change the final transition count: here
the original pair (20 °C Clouds, 22.5 °C Rain) is no transition, but after
inserting (18 °C, Clouds) the pair (18, Clouds) → (22.5, Rain) is one. -/
theorem quiet_insertion_counterexample :
    |(18 : ℚ) - 20| ≤ 3 ∧
    (runDay "2024-01-02"
        [⟨20, "Clouds", 0, 0⟩, ⟨18, "Clouds", 0, 0⟩, ⟨45/2, "Rain", 0, 0⟩]).transitions ≠
      (runDay "2024-01-02" [⟨20, "Clouds", 0, 0⟩, ⟨45/2, "Rain", 0, 0⟩]).transitions := by
  constructor
  · rw [abs_sub_comm, abs_of_nonneg (by norm_num : (0:ℚ) ≤ 20 - 18)]
    norm_num
  · norm_num [runDay, step, WeatherData.addSample, WeatherData.init, ratAbs]
    all_goals decide

/-- **C3 (amended).** Inserting at any position an additional sample whose
temperature **equals** the immediately previous sample's temperature and
whose category equals the immediately previous sample's category leaves the
final transition count unchanged. (The claim's "within 3.0 °C" is too weak:
the inserted sample changes the temperature the next sample is compared
against, see the counterexample.) -/
theorem quiet_insertion_invariant (d : String) (pre post : List Sample)
    (prev ins : Sample) (hT : ins.temp = prev.temp)
    (hC : ins.weather = prev.weather) :
    (runDay d (pre ++ [prev] ++ [ins] ++ post)).transitions =
      (runDay d (pre ++ [prev] ++ post)).transitions := by
  have hpp : ((pre ++ [prev]).foldl step (WeatherData.init d)).samples.getLast?
      = some (prev.temp, prev.weather) := by
    rw [foldl_step_samples]
    simp
  have h1 : (runDay d (pre ++ [prev] ++ [ins] ++ post)).transitions
      = ((pre ++ [prev]).foldl step (WeatherData.init d)).transitions
        + transCount (some (prev.temp, prev.weather)) post := by
    rw [runDay, List.foldl_append, List.foldl_append, List.foldl_cons, List.foldl_nil,
      foldl_step_transitions]
    congr 1
    · rw [step, addSample_transitions, hpp]
      simp [hC]
    · congr 1
      rw [step, addSample_samples, List.getLast?_concat, hT, hC]
  have h2 : (runDay d (pre ++ [prev] ++ post)).transitions
      = ((pre ++ [prev]).foldl step (WeatherData.init d)).transitions
        + transCount (some (prev.temp, prev.weather)) post := by
    rw [runDay, List.foldl_append, foldl_step_transitions, hpp]
  rw [h1, h2]

/-- Witness for the amended C3 statement at a concrete insertion. -/
theorem quiet_insertion_invariant_witness :
    (runDay "d" ([⟨20, "Rain", 0, 0⟩] ++ [⟨18, "Clouds", 1, 2⟩]
        ++ [⟨18, "Clouds", 0, 0⟩] ++ [⟨25, "Clear", 0, 0⟩])).transitions =
      (runDay "d" ([⟨20, "Rain", 0, 0⟩] ++ [⟨18, "Clouds", 1, 2⟩]
        ++ [⟨25, "Clear", 0, 0⟩])).transitions :=
  quiet_insertion_invariant "d" _ _ _ _ rfl rfl

/-- **C7.** For every sequence of samples with non-negative precipitation
fed to a day aggregator, the accumulated `rain_mm` / `snow_mm` are the
exact sums of the inputs, and rounding to one decimal happens once, in
`to_dict`. -/
theorem exact_accumulation (d : String) (l : List Sample)
    (h : ∀ s ∈ l, 0 ≤ s.rain ∧ 0 ≤ s.snow) :
    (runDay d l).rain_mm = (l.map Sample.rain).sum ∧
    (runDay d l).snow_mm = (l.map Sample.snow).sum ∧
    (runDay d l).toDict.rain_cumul_mm = round1 ((l.map Sample.rain).sum) ∧
    (runDay d l).toDict.snow_cumul_mm = round1 ((l.map Sample.snow).sum) := by
  have hr : (runDay d l).rain_mm = (l.map Sample.rain).sum := by
    rw [runDay, foldl_step_rain_mm]
    simp [WeatherData.init]
  have hs : (runDay d l).snow_mm = (l.map Sample.snow).sum := by
    rw [runDay, foldl_step_snow_mm]
    simp [WeatherData.init]
  exact ⟨hr, hs, by rw [WeatherData.toDict, hr], by rw [WeatherData.toDict, hs]⟩

/-- Witness for C7 at a concrete two-sample day. -/
theorem exact_accumulation_witness :
    (runDay "d" [⟨20, "Clear", 1/2, 0⟩, ⟨21, "Rain", 3/2, 1⟩]).rain_mm
        = ([⟨20, "Clear", 1/2, 0⟩, ⟨21, "Rain", 3/2, 1⟩].map Sample.rain).sum ∧
    (runDay "d" [⟨20, "Clear", 1/2, 0⟩, ⟨21, "Rain", 3/2, 1⟩]).snow_mm
        = ([⟨20, "Clear", 1/2, 0⟩, ⟨21, "Rain", 3/2, 1⟩].map Sample.snow).sum ∧
    (runDay "d" [⟨20, "Clear", 1/2, 0⟩, ⟨21, "Rain", 3/2, 1⟩]).toDict.rain_cumul_mm
        = round1 (([⟨20, "Clear", 1/2, 0⟩, ⟨21, "Rain", 3/2, 1⟩].map Sample.rain).sum) ∧
    (runDay "d" [⟨20, "Clear", 1/2, 0⟩, ⟨21, "Rain", 3/2, 1⟩]).toDict.snow_cumul_mm
        = round1 (([⟨20, "Clear", 1/2, 0⟩, ⟨21, "Rain", 3/2, 1⟩].map Sample.snow).sum) := by
  apply exact_accumulation
  intro s hs
  simp only [List.mem_cons, List.not_mem_nil, or_false] at hs
  rcases hs with h | h <;> subst h <;> norm_num

/-- **C8.** With non-negative precipitation inputs, one `add_sample` call
never decreases `rain_mm`, `snow_mm`, or `transitions`. -/
theorem addSample_monotone (w : WeatherData) (t : ℚ) (c : String) (r s : ℚ)
    (hr : 0 ≤ r) (hs : 0 ≤ s) :
    w.rain_mm ≤ (w.addSample t c r s).rain_mm ∧
    w.snow_mm ≤ (w.addSample t c r s).snow_mm ∧
    w.transitions ≤ (w.addSample t c r s).transitions := by
  refine ⟨?_, ?_, ?_⟩
  · rw [addSample_rain_mm]
    linarith
  · rw [addSample_snow_mm]
    linarith
  · rw [addSample_transitions]
    exact Nat.le_add_right _ _

/-- Witness for C8 at a concrete call. -/
theorem addSample_monotone_witness :
    (WeatherData.init "d").rain_mm
        ≤ ((WeatherData.init "d").addSample 20 "Rain" (1/2) 0).rain_mm ∧
    (WeatherData.init "d").snow_mm
        ≤ ((WeatherData.init "d").addSample 20 "Rain" (1/2) 0).snow_mm ∧
    (WeatherData.init "d").transitions
        ≤ ((WeatherData.init "d").addSample 20 "Rain" (1/2) 0).transitions :=
  addSample_monotone (WeatherData.init "d") 20 "Rain" (1/2) 0 (by norm_num) le_rfl

/-- Simulation between the implementation's `WeatherData` (whole sample
list) and the spec's `DailyAggregate` (only the last pair): related states
produce equal outputs after any further sample sequence. -/
theorem toDict_eq_toSummary_of_rel :
    ∀ (l : List Sample) (w : WeatherData) (v : DailyAggregate),
      w.date = v.date → w.rain_mm = v.rain_total_mm →
      w.snow_mm = v.snow_total_mm → w.transitions = v.transition_count →
      w.samples.getLast? = v.last_sample →
      (l.foldl step w).toDict = (l.foldl stepSpec v).toSummary := by
  intro l
  induction l with
  | nil =>
    intro w v h1 h2 h3 h4 h5
    simp [WeatherData.toDict, DailyAggregate.toSummary, h1, h2, h3, h4]
  | cons s rest ih =>
    intro w v h1 h2 h3 h4 h5
    rw [List.foldl_cons, List.foldl_cons]
    apply ih
    · exact h1
    · show w.rain_mm + s.rain = v.rain_total_mm + s.rain
      rw [h2]
    · show w.snow_mm + s.snow = v.snow_total_mm + s.snow
      rw [h3]
    · show w.transitions + _ = v.transition_count + _
      rw [h4, h5]
      congr 1
      cases v.last_sample with
      | none => rfl
      | some p =>
        obtain ⟨pt, pc⟩ := p
        simp [ratAbs_eq_abs]
    · rw [step, addSample_samples, List.getLast?_concat]
      rfl

/-- **C9.** The implementation, which stores the whole sample list but only
ever reads its last element, is observationally equivalent to the spec's
`last_sample` variant: both produce the same per-day summary for every
input sequence. -/
theorem last_sample_refinement (d : String) (l : List Sample) :
    (runDay d l).toDict = (l.foldl stepSpec (DailyAggregate.init d)).toSummary :=
  toDict_eq_toSummary_of_rel l (WeatherData.init d) (DailyAggregate.init d)
    rfl rfl rfl rfl rfl

/-- **C4.** A forecast whose local date string equals `today` is skipped
entirely: processing any list is the same as processing the list with all
same-day samples removed, so such samples contribute to no per-day totals
and never raise the running maximum humidity. -/
theorem today_excluded (today : String) (st : EngineState) (fs : List Forecast) :
    processForecasts today st fs
      = processForecasts today st (fs.filter (fun f => f.date != today)) := by
  induction fs generalizing st with
  | nil => rfl
  | cons f rest ih =>
    rw [processForecasts, List.foldl_cons]
    by_cases hf : f.date = today
    · rw [show processOne today st f = st from by rw [processOne, if_pos hf],
        List.filter_cons_of_neg (by simp [hf])]
      exact ih st
    · rw [List.filter_cons_of_pos (by simp [hf]), processForecasts, List.foldl_cons]
      exact ih (processOne today st f)

theorem processForecasts_all_today (today : String) (st : EngineState)
    (fs : List Forecast) (h : ∀ f ∈ fs, f.date = today) :
    processForecasts today st fs = st := by
  induction fs generalizing st with
  | nil => rfl
  | cons f rest ih =>
    rw [processForecasts, List.foldl_cons,
      show processOne today st f = st from by
        rw [processOne, if_pos (h f (List.mem_cons_self f rest))]]
    exact ih st fun g hg => h g (List.mem_cons_of_mem f hg)

theorem round1_zero : round1 0 = 0 := by
  norm_num [round1, roundHalfEven]

/-- **C5.** When every ingested sample is excluded (all dated `today`),
building the report is well defined: empty details, zero totals, zero
maximum humidity. -/
theorem empty_report (today name cc : String) (fs : List Forecast)
    (h : ∀ f ∈ fs, f.date = today) :
    (generateReport name cc (processForecasts today EngineState.init fs)).forecast_details
        = [] ∧
    (generateReport name cc
        (processForecasts today EngineState.init fs)).total_rain_period_mm = 0 ∧
    (generateReport name cc
        (processForecasts today EngineState.init fs)).total_snow_period_mm = 0 ∧
    (generateReport name cc
        (processForecasts today EngineState.init fs)).max_humidity_period = 0 := by
  rw [processForecasts_all_today today EngineState.init fs h]
  refine ⟨rfl, ?_, ?_, rfl⟩
  · show round1 0 = 0
    exact round1_zero
  · show round1 0 = 0
    exact round1_zero

/-- Witness for C5: a run whose only sample is dated `today`. -/
theorem empty_report_witness :
    (generateReport "Nantes" "fr" (processForecasts "2024-01-01" EngineState.init
        [⟨"2024-01-01", 20, "Clear", 0, 0, 50⟩])).forecast_details = [] ∧
    (generateReport "Nantes" "fr" (processForecasts "2024-01-01" EngineState.init
        [⟨"2024-01-01", 20, "Clear", 0, 0, 50⟩])).total_rain_period_mm = 0 ∧
    (generateReport "Nantes" "fr" (processForecasts "2024-01-01" EngineState.init
        [⟨"2024-01-01", 20, "Clear", 0, 0, 50⟩])).total_snow_period_mm = 0 ∧
    (generateReport "Nantes" "fr" (processForecasts "2024-01-01" EngineState.init
        [⟨"2024-01-01", 20, "Clear", 0, 0, 50⟩])).max_humidity_period = 0 :=
  empty_report "2024-01-01" "Nantes" "fr" _ (by
    intro f hf
    simp only [List.mem_singleton] at hf
    subst hf
    rfl)

theorem keys_updateDay (d : String) (g : WeatherData → WeatherData)
    (hg : ∀ w, (g w).date = w.date) (l : List WeatherData) :
    keys (updateDay d g l) = keys l := by
  induction l with
  | nil => rfl
  | cons w ws ih =>
    rw [updateDay]
    by_cases h : w.date = d
    · rw [if_pos h]
      simp [keys, hg w]
    · rw [if_neg h]
      simp only [keys, List.map_cons]
      rw [show List.map (fun w => w.date) (updateDay d g ws) = keys ws from ih]
      rfl

theorem nodup_keys_processOne (today : String) (st : EngineState) (f : Forecast)
    (h : (keys st.dailyData).Nodup) :
    (keys (processOne today st f).dailyData).Nodup := by
  rw [processOne]
  by_cases hf : f.date = today
  · rw [if_pos hf]
    exact h
  · rw [if_neg hf]
    dsimp only
    rw [keys_updateDay f.date (fun w => step w f.sample) (fun w => rfl)]
    by_cases hany : (st.dailyData.any (fun w => w.date == f.date)) = true
    · rw [if_pos hany]
      exact h
    · rw [if_neg hany]
      have hk : keys (st.dailyData ++ [WeatherData.init f.date])
          = keys st.dailyData ++ [f.date] := by
        simp [keys, WeatherData.init]
      rw [hk]
      have hnotin : f.date ∉ keys st.dailyData := by
        intro hmem
        apply hany
        simp only [keys, List.mem_map] at hmem
        obtain ⟨w, hw, hwd⟩ := hmem
        exact List.any_eq_true.mpr ⟨w, hw, by simp [hwd]⟩
      rw [List.nodup_append]
      exact ⟨h, List.nodup_singleton _, by
        intro a ha hb
        simp only [List.mem_singleton] at hb
        subst hb
        exact hnotin ha⟩

theorem nodup_keys_processForecasts (today : String) (fs : List Forecast) :
    (keys (processForecasts today EngineState.init fs).dailyData).Nodup := by
  suffices hgen : ∀ (st : EngineState), (keys st.dailyData).Nodup →
      (keys (processForecasts today st fs).dailyData).Nodup from
    hgen EngineState.init List.nodup_nil
  induction fs with
  | nil => exact fun st h => h
  | cons f rest ih =>
    intro st h
    rw [processForecasts, List.foldl_cons]
    exact ih (processOne today st f) (nodup_keys_processOne today st f h)

/-- **C6.** The report's `forecast_details` is strictly ascending in
`date_local`: sorted, with no two entries sharing a date. -/
theorem details_sorted_nodup (today name cc : String) (fs : List Forecast) :
    List.Pairwise (fun a b : DayDict => a.date_local < b.date_local)
      (generateReport name cc
        (processForecasts today EngineState.init fs)).forecast_details := by
  have hnd : (keys (processForecasts today EngineState.init fs).dailyData).Nodup :=
    nodup_keys_processForecasts today fs
  set l := (processForecasts today EngineState.init fs).dailyData with hl
  have hsorted : List.Sorted dateLE (l.insertionSort dateLE) :=
    List.sorted_insertionSort dateLE l
  have hperm : List.Perm (l.insertionSort dateLE) l := List.perm_insertionSort dateLE l
  have hnd2 : (List.map (fun w : WeatherData => w.date) l).Nodup := hnd
  have hnd' : (List.map (fun w : WeatherData => w.date)
      (l.insertionSort dateLE)).Nodup :=
    ((hperm.map (fun w => w.date)).nodup_iff).mpr hnd2
  have hne : List.Pairwise (fun a b : WeatherData => a.date ≠ b.date)
      (l.insertionSort dateLE) := by
    have hpws : List.Pairwise (fun a b : String => a ≠ b)
        ((l.insertionSort dateLE).map (fun w => w.date)) := hnd'
    exact List.pairwise_map.mp hpws
  have hpw : List.Pairwise (fun a b : WeatherData => a.date < b.date)
      (l.insertionSort dateLE) :=
    (hsorted.and hne).imp (fun hab => lt_of_le_of_ne hab.1 hab.2)
  show List.Pairwise _ ((l.insertionSort dateLE).map WeatherData.toDict)
  exact List.pairwise_map.mpr hpw

theorem filter_updateDay (d : String) (g : WeatherData → WeatherData)
    (hg : ∀ w, (g w).date = w.date) (l : List WeatherData) :
    (updateDay d g l).filter (fun w => w.date != d)
      = l.filter (fun w => w.date != d) := by
  induction l with
  | nil => rfl
  | cons w ws ih =>
    rw [updateDay]
    by_cases h : w.date = d
    · rw [if_pos h, List.filter_cons_of_neg (by simp [hg w, h]),
        List.filter_cons_of_neg (by simp [h])]
    · rw [if_neg h, List.filter_cons_of_pos (by simp [h]),
        List.filter_cons_of_pos (by simp [h]), ih]

theorem findDay_updateDay_ne (d d' : String) (hne : d ≠ d')
    (g : WeatherData → WeatherData) (hg : ∀ w, (g w).date = w.date)
    (l : List WeatherData) :
    findDay d (updateDay d' g l) = findDay d l := by
  induction l with
  | nil => rfl
  | cons w ws ih =>
    rw [updateDay]
    by_cases h : w.date = d'
    · have hb1 : ¬ (((g w).date == d) = true) := by
        rw [hg w, h, beq_iff_eq]
        exact fun hc => hne hc.symm
      have hb2 : ¬ ((w.date == d) = true) := by
        rw [h, beq_iff_eq]
        exact fun hc => hne hc.symm
      rw [if_pos h]
      simp only [findDay] at ih ⊢
      rw [@List.find?_cons_of_neg _ (fun x => x.date == d) (g w) ws hb1,
        @List.find?_cons_of_neg _ (fun x => x.date == d) w ws hb2]
    · rw [if_neg h]
      by_cases hwd : w.date = d
      · simp only [findDay]
        rw [@List.find?_cons_of_pos _ (fun x => x.date == d) w
            (updateDay d' g ws) (by simp [hwd]),
          @List.find?_cons_of_pos _ (fun x => x.date == d) w ws (by simp [hwd])]
      · simp only [findDay] at ih ⊢
        rw [@List.find?_cons_of_neg _ (fun x => x.date == d) w
            (updateDay d' g ws) (by simp [hwd]),
          @List.find?_cons_of_neg _ (fun x => x.date == d) w ws (by simp [hwd])]
        exact ih

theorem findDay_updateDay_self (d : String) (g : WeatherData → WeatherData)
    (hg : ∀ w, (g w).date = w.date) (l : List WeatherData) :
    findDay d (updateDay d g l) = (findDay d l).map g := by
  induction l with
  | nil => rfl
  | cons w ws ih =>
    rw [updateDay]
    by_cases h : w.date = d
    · rw [if_pos h]
      simp only [findDay]
      rw [@List.find?_cons_of_pos _ (fun x => x.date == d) (g w) ws
          (by simp [hg w, h]),
        @List.find?_cons_of_pos _ (fun x => x.date == d) w ws (by simp [h])]
      rfl
    · rw [if_neg h]
      simp only [findDay] at ih ⊢
      rw [@List.find?_cons_of_neg _ (fun x => x.date == d) w
          (updateDay d g ws) (by simp [h]),
        @List.find?_cons_of_neg _ (fun x => x.date == d) w ws (by simp [h])]
      exact ih

theorem findDay_processForecasts (today d : String) (hd : d ≠ today)
    (fs : List Forecast) :
    ∀ (st : EngineState),
      findDay d (processForecasts today st fs).dailyData =
        match findDay d st.dailyData with
        | some w => some ((samplesOf d fs).foldl step w)
        | none =>
            if (samplesOf d fs).isEmpty then none
            else some (runDay d (samplesOf d fs)) := by
  induction fs with
  | nil =>
    intro st
    cases hfd : findDay d st.dailyData with
    | some w => simp [processForecasts, samplesOf, hfd]
    | none => simp [processForecasts, samplesOf, hfd]
  | cons f rest ih =>
    intro st
    rw [processForecasts, List.foldl_cons,
      show (rest.foldl (processOne today) (processOne today st f))
        = processForecasts today (processOne today st f) rest from rfl,
      ih (processOne today st f)]
    by_cases hft : f.date = today
    · have h1 : processOne today st f = st := by rw [processOne, if_pos hft]
      have h2 : samplesOf d (f :: rest) = samplesOf d rest := by
        rw [samplesOf, List.filter_cons_of_neg (by
          simp only [beq_iff_eq]
          exact fun hc => hd (hft ▸ hc.symm))]
        rfl
      rw [h1, h2]
    · have hpo : (processOne today st f).dailyData
          = updateDay f.date (fun w => step w f.sample)
              (if (st.dailyData.any fun w => w.date == f.date) = true
               then st.dailyData
               else st.dailyData ++ [WeatherData.init f.date]) := by
        rw [processOne, if_neg hft]
      by_cases hfd : f.date = d
      · have h2 : samplesOf d (f :: rest) = f.sample :: samplesOf d rest := by
          rw [samplesOf, List.filter_cons_of_pos (by simp [hfd])]
          rfl
        rw [h2]
        by_cases hany : (st.dailyData.any fun w => w.date == f.date) = true
        · obtain ⟨w, hw, hpw⟩ := List.any_eq_true.mp hany
          have hsome : findDay d st.dailyData = (st.dailyData.find? fun w => w.date == d) := rfl
          have hisSome : (findDay d st.dailyData).isSome := by
            rw [findDay, ← hfd]
            exact List.find?_isSome.mpr ⟨w, hw, hpw⟩
          obtain ⟨w₀, hw₀⟩ := Option.isSome_iff_exists.mp hisSome
          have hstep : findDay d (processOne today st f).dailyData
              = some (step w₀ f.sample) := by
            rw [hpo, if_pos hany, hfd,
              findDay_updateDay_self d (fun w => step w f.sample) (fun w => rfl)
                st.dailyData, hw₀]
            rfl
          rw [hstep, hw₀]
          simp [List.foldl_cons]
        · have hnone : findDay d st.dailyData = none := by
            rw [findDay, List.find?_eq_none]
            intro w hw
            rw [← hfd]
            intro hpw
            exact hany (List.any_eq_true.mpr ⟨w, hw, hpw⟩)
          have hstep : findDay d (processOne today st f).dailyData
              = some (step (WeatherData.init d) f.sample) := by
            rw [hpo, if_neg hany, hfd,
              findDay_updateDay_self d (fun w => step w f.sample) (fun w => rfl)]
            rw [findDay, List.find?_append]
            rw [show (st.dailyData.find? fun w => w.date == d) = none from hnone]
            simp [WeatherData.init, hfd]
          rw [hstep, hnone]
          simp [runDay, List.foldl_cons]
      · have h2 : samplesOf d (f :: rest) = samplesOf d rest := by
          rw [samplesOf, List.filter_cons_of_neg (by simp [hfd])]
          rfl
        have hsame : findDay d (processOne today st f).dailyData
            = findDay d st.dailyData := by
          rw [hpo, findDay_updateDay_ne d f.date (fun hc => hfd hc.symm)
            (fun w => step w f.sample) (fun w => rfl)]
          by_cases hany : (st.dailyData.any fun w => w.date == f.date) = true
          · rw [if_pos hany]
          · rw [if_neg hany, findDay, List.find?_append]
            have hlast : ([WeatherData.init f.date].find? fun w => w.date == d)
                = none := by
              simp [WeatherData.init, hfd]
            rw [hlast]
            simp [findDay]
        rw [hsame, h2]

/-- **C10.** Processing one non-excluded sample leaves every other day's
aggregate unchanged and only raises the running maximum humidity; hence the
aggregate finally stored for a date `d` is exactly the fold of the ordered
subsequence of samples dated `d`. -/
theorem frame_property (today : String) (st : EngineState) (f : Forecast)
    (hf : f.date ≠ today) :
    ((processOne today st f).dailyData.filter (fun w => w.date != f.date)
        = st.dailyData.filter (fun w => w.date != f.date) ∧
      (processOne today st f).maxHumidity = max st.maxHumidity f.humidity) ∧
    ∀ (fs : List Forecast) (d : String), d ≠ today →
      findDay d (processForecasts today EngineState.init fs).dailyData =
        (if (samplesOf d fs).isEmpty then none
         else some (runDay d (samplesOf d fs))) := by
  refine ⟨⟨?_, ?_⟩, ?_⟩
  · rw [processOne, if_neg hf]
    dsimp only
    rw [filter_updateDay f.date (fun w => step w f.sample) (fun w => rfl)]
    by_cases hany : (st.dailyData.any fun w => w.date == f.date) = true
    · rw [if_pos hany]
    · rw [if_neg hany, List.filter_append]
      simp [WeatherData.init]
  · rw [processOne, if_neg hf]
  · intro fs d hd
    rw [findDay_processForecasts today d hd fs EngineState.init]
    rfl

/-- Witness for C10 at a concrete non-excluded sample and a concrete run. -/
theorem frame_property_witness :
    ((processOne "2024-01-01" EngineState.init
          ⟨"2024-01-02", 20, "Rain", 1, 0, 80⟩).dailyData.filter
            (fun w => w.date != "2024-01-02")
        = EngineState.init.dailyData.filter (fun w => w.date != "2024-01-02") ∧
      (processOne "2024-01-01" EngineState.init
          ⟨"2024-01-02", 20, "Rain", 1, 0, 80⟩).maxHumidity
        = max EngineState.init.maxHumidity 80) ∧
    findDay "2024-01-03" (processForecasts "2024-01-01" EngineState.init
        [⟨"2024-01-02", 20, "Rain", 1, 0, 80⟩]).dailyData =
      (if (samplesOf "2024-01-03" [⟨"2024-01-02", 20, "Rain", 1, 0, 80⟩]).isEmpty
       then none
       else some (runDay "2024-01-03"
          (samplesOf "2024-01-03" [⟨"2024-01-02", 20, "Rain", 1, 0, 80⟩]))) :=
  ⟨(frame_property "2024-01-01" EngineState.init
      ⟨"2024-01-02", 20, "Rain", 1, 0, 80⟩ (by decide)).1,
   (frame_property "2024-01-01" EngineState.init
      ⟨"2024-01-02", 20, "Rain", 1, 0, 80⟩ (by decide)).2
     [⟨"2024-01-02", 20, "Rain", 1, 0, 80⟩] "2024-01-03" (by decide)⟩

theorem roundHalfEven_err (q : ℚ) : |(roundHalfEven q : ℚ) - q| ≤ 1/2 := by
  have hfl : (⌊q⌋ : ℚ) ≤ q := Int.floor_le q
  have hfu : q < ⌊q⌋ + 1 := Int.lt_floor_add_one q
  unfold roundHalfEven
  dsimp only
  split_ifs with h1 h2 h3
  · rw [abs_sub_comm, abs_of_nonneg (by linarith : (0:ℚ) ≤ q - ⌊q⌋)]
    linarith
  · push_cast
    rw [abs_of_nonneg (by linarith : (0:ℚ) ≤ (⌊q⌋:ℚ) + 1 - q)]
    linarith
  · have heq : q - ⌊q⌋ = 1/2 := le_antisymm (not_lt.mp h2) (not_lt.mp h1)
    rw [abs_sub_comm, abs_of_nonneg (by linarith : (0:ℚ) ≤ q - ⌊q⌋)]
    linarith
  · have heq : q - ⌊q⌋ = 1/2 := le_antisymm (not_lt.mp h2) (not_lt.mp h1)
    push_cast
    rw [abs_of_nonneg (by linarith : (0:ℚ) ≤ (⌊q⌋:ℚ) + 1 - q)]
    linarith

theorem round1_err (q : ℚ) : |round1 q - q| ≤ 1/20 := by
  rw [round1]
  have h := roundHalfEven_err (q * 10)
  have hrw : (roundHalfEven (q * 10) : ℚ)/10 - q
      = ((roundHalfEven (q * 10) : ℚ) - q * 10)/10 := by ring
  rw [hrw, abs_div, abs_of_nonneg (by norm_num : (0:ℚ) ≤ 10)]
  linarith

theorem sum_round1_err (l : List ℚ) :
    |(l.map round1).sum - l.sum| ≤ l.length / 20 := by
  induction l with
  | nil => simp
  | cons q rest ih =>
    simp only [List.map_cons, List.sum_cons, List.length_cons]
    have h1 := round1_err q
    have htri : |round1 q + (rest.map round1).sum - (q + rest.sum)|
        ≤ |round1 q - q| + |(rest.map round1).sum - rest.sum| := by
      have hsplit : round1 q + (rest.map round1).sum - (q + rest.sum)
          = (round1 q - q) + ((rest.map round1).sum - rest.sum) := by ring
      rw [hsplit]
      exact abs_add _ _
    push_cast
    push_cast at ih
    linarith

/-- **C1 (amended).** The report's totals are the **unrounded** per-day sums
rounded once; they agree with the sum of the rounded `rain_cumul_mm` /
`snow_cumul_mm` entries of `forecast_details` only up to a rounding error of
at most `0.05 * (number of days + 1)` mm, not exactly (see the
counterexample). -/
theorem total_rounding_amended (name cc : String) (st : EngineState) :
    (generateReport name cc st).total_rain_period_mm
        = round1 ((st.dailyData.map (fun w => w.rain_mm)).sum) ∧
    (generateReport name cc st).total_snow_period_mm
        = round1 ((st.dailyData.map (fun w => w.snow_mm)).sum) ∧
    |(generateReport name cc st).total_rain_period_mm
        - (((generateReport name cc st).forecast_details).map
            (fun x => x.rain_cumul_mm)).sum|
        ≤ ((generateReport name cc st).forecast_details.length + 1) / 20 ∧
    |(generateReport name cc st).total_snow_period_mm
        - (((generateReport name cc st).forecast_details).map
            (fun x => x.snow_cumul_mm)).sum|
        ≤ ((generateReport name cc st).forecast_details.length + 1) / 20 := by
  have hperm : List.Perm (st.dailyData.insertionSort dateLE) st.dailyData :=
    List.perm_insertionSort dateLE st.dailyData
  have hlen : (generateReport name cc st).forecast_details.length
      = st.dailyData.length := by
    show ((st.dailyData.insertionSort dateLE).map WeatherData.toDict).length = _
    rw [List.length_map, hperm.length_eq]
  refine ⟨rfl, rfl, ?_, ?_⟩
  · have hmap : ((generateReport name cc st).forecast_details).map
        (fun x => x.rain_cumul_mm)
        = (st.dailyData.insertionSort dateLE).map (fun w => round1 w.rain_mm) := by
      show ((st.dailyData.insertionSort dateLE).map WeatherData.toDict).map _ = _
      rw [List.map_map]
      rfl
    have hpm : List.Perm
        ((st.dailyData.insertionSort dateLE).map (fun w => round1 w.rain_mm))
        (st.dailyData.map (fun w => round1 w.rain_mm)) := hperm.map _
    have hsum : ((st.dailyData.insertionSort dateLE).map
        (fun w => round1 w.rain_mm)).sum
        = (st.dailyData.map (fun w => round1 w.rain_mm)).sum := hpm.sum_eq
    have h1 := round1_err ((st.dailyData.map (fun w => w.rain_mm)).sum)
    have h2 := sum_round1_err (st.dailyData.map (fun w => w.rain_mm))
    rw [List.length_map] at h2
    have hcomp : ((st.dailyData.map (fun w => w.rain_mm)).map round1).sum
        = (st.dailyData.map (fun w => round1 w.rain_mm)).sum := by
      rw [List.map_map]
      rfl
    rw [hcomp] at h2
    have htri := abs_sub_le
      (round1 ((st.dailyData.map (fun w => w.rain_mm)).sum))
      ((st.dailyData.map (fun w => w.rain_mm)).sum)
      ((st.dailyData.map (fun w => round1 w.rain_mm)).sum)
    rw [hmap, hsum, hlen]
    show |round1 ((st.dailyData.map (fun w => w.rain_mm)).sum) - _| ≤ _
    rw [abs_sub_comm] at h2
    linarith
  · have hmap : ((generateReport name cc st).forecast_details).map
        (fun x => x.snow_cumul_mm)
        = (st.dailyData.insertionSort dateLE).map (fun w => round1 w.snow_mm) := by
      show ((st.dailyData.insertionSort dateLE).map WeatherData.toDict).map _ = _
      rw [List.map_map]
      rfl
    have hpm : List.Perm
        ((st.dailyData.insertionSort dateLE).map (fun w => round1 w.snow_mm))
        (st.dailyData.map (fun w => round1 w.snow_mm)) := hperm.map _
    have hsum : ((st.dailyData.insertionSort dateLE).map
        (fun w => round1 w.snow_mm)).sum
        = (st.dailyData.map (fun w => round1 w.snow_mm)).sum := hpm.sum_eq
    have h1 := round1_err ((st.dailyData.map (fun w => w.snow_mm)).sum)
    have h2 := sum_round1_err (st.dailyData.map (fun w => w.snow_mm))
    rw [List.length_map] at h2
    have hcomp : ((st.dailyData.map (fun w => w.snow_mm)).map round1).sum
        = (st.dailyData.map (fun w => round1 w.snow_mm)).sum := by
      rw [List.map_map]
      rfl
    rw [hcomp] at h2
    have htri := abs_sub_le
      (round1 ((st.dailyData.map (fun w => w.snow_mm)).sum))
      ((st.dailyData.map (fun w => w.snow_mm)).sum)
      ((st.dailyData.map (fun w => round1 w.snow_mm)).sum)
    rw [hmap, hsum, hlen]
    show |round1 ((st.dailyData.map (fun w => w.snow_mm)).sum) - _| ≤ _
    rw [abs_sub_comm] at h2
    linarith

/-- **C1 counterexample.** With `today = 2024-01-01` and one 0.04 mm rain
sample on each of two later days, the report's `total_rain_period_mm` is
`round1(0.08) = 0.1`, while each day's `rain_cumul_mm` is `round1(0.04) = 0`,
so the total equals neither the rounded nor the unrounded sum of the
`rain_cumul_mm` entries (both are `0`). -/
theorem total_rounding_counterexample :
    (generateReport "X" "FR" (processForecasts "2024-01-01" EngineState.init
        [⟨"2024-01-02", 20, "Clear", 1/25, 0, 50⟩,
         ⟨"2024-01-03", 20, "Clear", 1/25, 0, 50⟩])).total_rain_period_mm ≠
      round1 (((generateReport "X" "FR" (processForecasts "2024-01-01"
          EngineState.init
          [⟨"2024-01-02", 20, "Clear", 1/25, 0, 50⟩,
           ⟨"2024-01-03", 20, "Clear", 1/25, 0, 50⟩])).forecast_details.map
            (fun x => x.rain_cumul_mm)).sum) ∧
    (generateReport "X" "FR" (processForecasts "2024-01-01" EngineState.init
        [⟨"2024-01-02", 20, "Clear", 1/25, 0, 50⟩,
         ⟨"2024-01-03", 20, "Clear", 1/25, 0, 50⟩])).total_rain_period_mm ≠
      ((generateReport "X" "FR" (processForecasts "2024-01-01" EngineState.init
          [⟨"2024-01-02", 20, "Clear", 1/25, 0, 50⟩,
           ⟨"2024-01-03", 20, "Clear", 1/25, 0, 50⟩])).forecast_details.map
            (fun x => x.rain_cumul_mm)).sum := by
  have hrun : processForecasts "2024-01-01" EngineState.init
        [⟨"2024-01-02", 20, "Clear", 1/25, 0, 50⟩,
         ⟨"2024-01-03", 20, "Clear", 1/25, 0, 50⟩]
      = { dailyData :=
            [{ date := "2024-01-02", rain_mm := 1/25, snow_mm := 0,
               transitions := 0, samples := [(20, "Clear")] },
             { date := "2024-01-03", rain_mm := 1/25, snow_mm := 0,
               transitions := 0, samples := [(20, "Clear")] }]
          maxHumidity := 50 } := by
    norm_num [processForecasts, processOne, updateDay, EngineState.init,
      WeatherData.init, WeatherData.addSample, step, Forecast.sample]
    simp
  rw [hrun]
  have hle : dateLE
      { date := "2024-01-02", rain_mm := 1/25, snow_mm := 0,
        transitions := 0, samples := [(20, "Clear")] }
      { date := "2024-01-03", rain_mm := 1/25, snow_mm := 0,
        transitions := 0, samples := [(20, "Clear")] } := by
    show ("2024-01-02" : String) ≤ "2024-01-03"
    simp
    decide
  have hsort :
      ([{ date := "2024-01-02", rain_mm := 1/25, snow_mm := 0,
          transitions := 0, samples := [(20, "Clear")] },
        { date := "2024-01-03", rain_mm := 1/25, snow_mm := 0,
          transitions := 0, samples := [(20, "Clear")] }] :
        List WeatherData).insertionSort dateLE
      = [{ date := "2024-01-02", rain_mm := 1/25, snow_mm := 0,
           transitions := 0, samples := [(20, "Clear")] },
         { date := "2024-01-03", rain_mm := 1/25, snow_mm := 0,
           transitions := 0, samples := [(20, "Clear")] }] := by
    simp only [List.insertionSort, List.orderedInsert]
    rw [if_pos hle]
  have htot :
      (generateReport "X" "FR"
          { dailyData :=
              [{ date := "2024-01-02", rain_mm := 1/25, snow_mm := 0,
                 transitions := 0, samples := [(20, "Clear")] },
               { date := "2024-01-03", rain_mm := 1/25, snow_mm := 0,
                 transitions := 0, samples := [(20, "Clear")] }]
            maxHumidity := 50 }).total_rain_period_mm = round1 (2/25) := by
    show round1 (1/25 + (1/25 + 0)) = round1 (2/25)
    norm_num
  have hdet :
      (generateReport "X" "FR"
          { dailyData :=
              [{ date := "2024-01-02", rain_mm := 1/25, snow_mm := 0,
                 transitions := 0, samples := [(20, "Clear")] },
               { date := "2024-01-03", rain_mm := 1/25, snow_mm := 0,
                 transitions := 0, samples := [(20, "Clear")] }]
            maxHumidity := 50 }).forecast_details
        = [{ date_local := "2024-01-02", rain_cumul_mm := round1 (1/25),
             snow_cumul_mm := round1 0, major_transitions_count := 0 },
           { date_local := "2024-01-03", rain_cumul_mm := round1 (1/25),
             snow_cumul_mm := round1 0, major_transitions_count := 0 }] := by
    show (List.insertionSort dateLE _).map WeatherData.toDict = _
    rw [hsort]
    rfl
  rw [htot, hdet]
  constructor
  · norm_num [round1, roundHalfEven]
  · norm_num [round1, roundHalfEven]

end Exam
